import Mathlib

/-!
Verification of the women's-safety gesture alert system.

The embedding models, from the source:
- `gesture_detector.py`: the per-finger geometric classifier (`_is_fist`,
  `_is_palm`), the per-frame gesture dispatch and the SOS palm-hold timer
  (`detect_gesture`), with landmark coordinates and timestamps as exact
  rationals.
- `main.py`: the edge dispatch between consecutive SOS signals in
  `SafetyApp.run`, and the teardown sequence of `SafetyApp.cleanup`.
- `alert_system.py`: the `AlertSystem` state machine (`__init__`,
  `trigger_alert`, `stop_alert_sound`), with thread liveness modelled as a
  count of playback workers and collaborator failures injected as flags.
-/

namespace WomensSafety

/-- One MediaPipe hand landmark: normalized x and y coordinates.
The source compares only `x` and `y`, so `z` is not modelled. -/
structure Landmark where
  x : ℚ
  y : ℚ
deriving DecidableEq, Repr

/-- A full set of 21 hand landmarks for one tracked hand, indexed as by
MediaPipe (`hand_landmarks.landmark` in the source). -/
def LandmarkSet := Fin 21 → Landmark

/-- The gestures `GestureDetector.detect_gesture` reports. -/
inductive Gesture where
  | FIST
  | PALM
  | NONE
deriving DecidableEq, Repr

/-- The closed-finger count of `GestureDetector._is_fist`:
thumb (tip index 4, joint index 3) closed iff `tip.x < joint.x`;
index/middle/ring/pinky (tips 8, 12, 16, 20; pips 6, 10, 14, 18) closed iff
`tip.y > pip.y`, the loop `for i in range(1, 5)` unrolled. -/
def fingers_closed (lms : LandmarkSet) : ℕ :=
  (if (lms 4).x < (lms 3).x then 1 else 0)
  + (if (lms 8).y > (lms 6).y then 1 else 0)
  + (if (lms 12).y > (lms 10).y then 1 else 0)
  + (if (lms 16).y > (lms 14).y then 1 else 0)
  + (if (lms 20).y > (lms 18).y then 1 else 0)

/-- `GestureDetector._is_fist`: four or more closed fingers. -/
def is_fist (lms : LandmarkSet) : Bool :=
  fingers_closed lms ≥ 4

/-- The extended-finger count of `GestureDetector._is_palm`:
thumb extended iff `tip.x > joint.x`; the other four fingers extended iff
`tip.y < pip.y`, over the same tip/pip index pairs as `fingers_closed`. -/
def fingers_extended (lms : LandmarkSet) : ℕ :=
  (if (lms 4).x > (lms 3).x then 1 else 0)
  + (if (lms 8).y < (lms 6).y then 1 else 0)
  + (if (lms 12).y < (lms 10).y then 1 else 0)
  + (if (lms 16).y < (lms 14).y then 1 else 0)
  + (if (lms 20).y < (lms 18).y then 1 else 0)

/-- `GestureDetector._is_palm`: four or more extended fingers. -/
def is_palm (lms : LandmarkSet) : Bool :=
  fingers_extended lms ≥ 4

/-- The gesture dispatch of `GestureDetector.detect_gesture` for a detected
hand: `_is_palm` is tested first, then `_is_fist`, else `"NONE"`. -/
def classify (lms : LandmarkSet) : Gesture :=
  if is_palm lms then Gesture.PALM
  else if is_fist lms then Gesture.FIST
  else Gesture.NONE

/-- The cross-frame state of `GestureDetector`: `self.palm_start_time`,
`None` initially and after every non-PALM frame. -/
structure TimerState where
  palm_start_time : Option ℚ
deriving DecidableEq, Repr

/-- `self.sos_trigger_duration = 3.0`. -/
def sos_trigger_duration : ℚ := 3

/-- One per-frame update of `GestureDetector.detect_gesture`: the input is
the (at most one) detected hand and the sampled `time.time()` value, the
output is `(gesture, is_sos)` and the updated `palm_start_time`.
On PALM the timer starts at `now` when unset and `is_sos` becomes true when
`now - palm_start_time ≥ 3.0`; on FIST, on an unrecognized hand pose and
when no hand is detected, `palm_start_time` is reset to `None` and `is_sos`
keeps its per-frame initial value `False`. -/
def detect_gesture (hand : Option LandmarkSet) (now : ℚ) (s : TimerState) :
    Gesture × Bool × TimerState :=
  match hand with
  | none => (Gesture.NONE, false, ⟨none⟩)
  | some lms =>
    if is_palm lms then
      let start := s.palm_start_time.getD now
      (Gesture.PALM, decide (now - start ≥ sos_trigger_duration), ⟨some start⟩)
    else if is_fist lms then
      (Gesture.FIST, false, ⟨none⟩)
    else
      (Gesture.NONE, false, ⟨none⟩)

/-- A concrete all-fingers-extended hand: thumb tip x right of its joint,
the four finger tips above (smaller y than) their pip joints. -/
def palmHand : LandmarkSet := fun i =>
  if i.val = 4 then ⟨1, 0⟩
  else if i.val = 3 then ⟨0, 0⟩
  else if i.val = 8 ∨ i.val = 12 ∨ i.val = 16 ∨ i.val = 20 then ⟨0, 0⟩
  else ⟨0, 1⟩

/-- A concrete all-fingers-closed hand: thumb tip x left of its joint, the
four finger tips below (larger y than) their pip joints. -/
def fistHand : LandmarkSet := fun i =>
  if i.val = 4 then ⟨0, 0⟩
  else if i.val = 3 then ⟨1, 0⟩
  else if i.val = 8 ∨ i.val = 12 ∨ i.val = 16 ∨ i.val = 20 then ⟨0, 2⟩
  else ⟨0, 1⟩

/-- A concrete ambiguous hand: every tip coincides with its joint, so no
finger counts as extended or as closed. -/
def ambiguousHand : LandmarkSet := fun _ => ⟨0, 0⟩

/-- Each finger contributes at most one of `extended` and `closed`: the two
tests are strict comparisons of the same pair in opposite directions. -/
theorem pair_le_one (a b : ℚ) :
    ((if a > b then (1 : ℕ) else 0) + (if a < b then 1 else 0)) ≤ 1 := by
  split_ifs with h1 h2
  · exact absurd h2 (not_lt_of_gt h1)
  · omega
  · omega
  · omega

/-- The extended and closed counts of one landmark set sum to at most 5. -/
theorem ext_add_closed_le_five (lms : LandmarkSet) :
    fingers_extended lms + fingers_closed lms ≤ 5 := by
  have h1 := pair_le_one ((lms 4).x) ((lms 3).x)
  have h2 := pair_le_one ((lms 6).y) ((lms 8).y)
  have h3 := pair_le_one ((lms 10).y) ((lms 12).y)
  have h4 := pair_le_one ((lms 14).y) ((lms 16).y)
  have h5 := pair_le_one ((lms 18).y) ((lms 20).y)
  unfold fingers_extended fingers_closed
  simp only [gt_iff_lt] at *
  omega

example : is_palm palmHand = true := by decide
example : is_fist fistHand = true := by decide
example : classify ambiguousHand = Gesture.NONE := by decide
example : fingers_extended ambiguousHand = 0 := by decide

/-- C3: for every set of 21 hand landmarks, index/middle/ring/pinky count
as extended iff tip.y is strictly smaller than pip.y and closed iff
strictly greater, the thumb as extended iff tip.x is strictly greater than
joint.x and closed iff strictly smaller (the counts `fingers_extended` and
`fingers_closed`), and classification returns PALM iff at least 4 of 5
fingers count as extended, FIST iff at least 4 count as closed, and NONE
otherwise. -/
theorem classify_rule_spec (lms : LandmarkSet) :
    (classify lms = Gesture.PALM ↔ fingers_extended lms ≥ 4) ∧
    (classify lms = Gesture.FIST ↔ fingers_closed lms ≥ 4) ∧
    (classify lms = Gesture.NONE ↔
      fingers_extended lms < 4 ∧ fingers_closed lms < 4) := by
  have hsum := ext_add_closed_le_five lms
  by_cases hp : 4 ≤ fingers_extended lms
  · by_cases hf : 4 ≤ fingers_closed lms
    · simp [classify, is_palm, is_fist, hp, hf]
      omega
    · simp [classify, is_palm, is_fist, hp, hf]
  · by_cases hf : 4 ≤ fingers_closed lms
    · simp [classify, is_palm, is_fist, hp, hf]
    · simp [classify, is_palm, is_fist, hp, hf]
      omega

/-- C4: for every ambiguous landmark set — neither at least 4 fingers
extended nor at least 4 closed, or (vacuously, by the exclusion bound)
both at once — classification returns NONE, never a false PALM or FIST. -/
theorem ambiguous_classifies_none (lms : LandmarkSet)
    (h : (fingers_extended lms < 4 ∧ fingers_closed lms < 4) ∨
         (fingers_extended lms ≥ 4 ∧ fingers_closed lms ≥ 4)) :
    classify lms = Gesture.NONE := by
  have hsum := ext_add_closed_le_five lms
  rcases h with ⟨h1, h2⟩ | ⟨h1, h2⟩
  · have hp : is_palm lms = false := by
      simp [is_palm]
      omega
    have hf : is_fist lms = false := by
      simp [is_fist]
      omega
    simp [classify, hp, hf]
  · exact absurd hsum (by omega)

/-- C4 witness: the all-coincident hand is ambiguous and classifies NONE. -/
theorem ambiguous_classifies_none_witness :
    classify ambiguousHand = Gesture.NONE :=
  ambiguous_classifies_none ambiguousHand (Or.inl (by decide))

/-- C9: for every set of 21 hand landmarks the extended count plus the
closed count never exceeds 5 (each finger's two tests are strict opposite
comparisons of the same coordinate pair), so the palm and fist tests are
mutually exclusive and the PALM-before-FIST dispatch order never
misreports a fist as a palm. -/
theorem palm_fist_exclusive (lms : LandmarkSet) :
    fingers_extended lms + fingers_closed lms ≤ 5 ∧
    ¬(is_palm lms = true ∧ is_fist lms = true) ∧
    (is_fist lms = true → classify lms = Gesture.FIST) := by
  have hsum := ext_add_closed_le_five lms
  refine ⟨hsum, ?_, ?_⟩
  · rintro ⟨hp, hf⟩
    simp [is_palm, is_fist] at hp hf
    omega
  · intro hf
    have hp : is_palm lms = false := by
      simp [is_palm, is_fist] at hf ⊢
      omega
    simp [classify, hp, hf]

/-- C1: per-frame SOS timer update — when the classified gesture is PALM,
`palm_start_time` becomes the previous timestamp or, if that was unset,
the current time, and `is_sos` is true exactly when
`now - palm_start_time ≥ 3.0`; when the classified gesture is not PALM
(FIST, an unrecognized pose, or no detected hand), `palm_start_time` is
unconditionally cleared and `is_sos` is false. -/
theorem sos_timer_update_spec (hand : Option LandmarkSet) (now : ℚ)
    (s : TimerState) :
    ((detect_gesture hand now s).1 = Gesture.PALM →
      (detect_gesture hand now s).2.2.palm_start_time =
          some (s.palm_start_time.getD now) ∧
      ((detect_gesture hand now s).2.1 = true ↔
          now - s.palm_start_time.getD now ≥ sos_trigger_duration)) ∧
    ((detect_gesture hand now s).1 ≠ Gesture.PALM →
      (detect_gesture hand now s).2.2.palm_start_time = none ∧
      (detect_gesture hand now s).2.1 = false) := by
  cases hand with
  | none => simp [detect_gesture]
  | some lms =>
    by_cases hp : is_palm lms
    · simp [detect_gesture, hp]
    · by_cases hf : is_fist lms <;> simp [detect_gesture, hp, hf]

/-- C10: a frame evaluated with `palm_start_time` unset never signals SOS
(on the first PALM frame after any reset the same time sample starts the
timer and is compared against it, so the elapsed time is zero); and
whenever a frame does signal SOS, the timer was already running from an
earlier PALM frame, at least 3 seconds before. -/
theorem isolated_palm_no_sos :
    (∀ (hand : Option LandmarkSet) (now : ℚ),
      (detect_gesture hand now ⟨none⟩).2.1 = false) ∧
    (∀ (hand : Option LandmarkSet) (now : ℚ) (s : TimerState),
      (detect_gesture hand now s).2.1 = true →
        ∃ t : ℚ, s.palm_start_time = some t ∧
          now - t ≥ sos_trigger_duration) := by
  constructor
  · intro hand now
    cases hand with
    | none => rfl
    | some lms =>
      by_cases hp : is_palm lms
      · simp [detect_gesture, hp, sos_trigger_duration]
      · by_cases hf : is_fist lms <;> simp [detect_gesture, hp, hf]
  · intro hand now s hsos
    cases hand with
    | none => simp [detect_gesture] at hsos
    | some lms =>
      by_cases hp : is_palm lms
      · cases hst : s.palm_start_time with
        | none =>
          simp [detect_gesture, hp, hst, sos_trigger_duration] at hsos
          exact absurd hsos (by norm_num)
        | some t =>
          simp [detect_gesture, hp, hst] at hsos
          exact ⟨t, rfl, hsos⟩
      · by_cases hf : is_fist lms <;> simp [detect_gesture, hp, hf] at hsos

/-- The alarm operations AlertSystem exposes to the main loop. -/
inductive AlarmCall where
  | start
  | stop
deriving DecidableEq, Repr

/-- The per-frame alarm dispatch of `SafetyApp.run`:
`if is_sos and not previous_sos_state: trigger_alert()`
`elif not is_sos and previous_sos_state: stop_alert_sound()`,
else no alarm call. -/
def alarmDispatch (previous_sos current_sos : Bool) : Option AlarmCall :=
  if current_sos && !previous_sos then some AlarmCall.start
  else if !current_sos && previous_sos then some AlarmCall.stop
  else none

/-- The alarm calls the main loop makes over a sequence of per-frame SOS
signals, carrying `previous_sos_state` across frames as `SafetyApp.run`
does (it starts at `False`). -/
def runCalls : Bool → List Bool → List (Option AlarmCall)
  | _, [] => []
  | prev, cur :: rest => alarmDispatch prev cur :: runCalls cur rest

/-- C2: the main loop calls the alarm start operation exactly on a rising
SOS edge and the stop operation exactly on a falling edge, with no call on
stable frames; on the signal sequence [false, false, true, true, false]
(previous state initially false) it makes exactly one start call, at the
transition into the 3rd element, and exactly one stop call, at the
transition into the 5th, and no other calls. -/
theorem alarm_edge_dispatch_spec :
    (∀ p c : Bool,
      alarmDispatch p c = some AlarmCall.start ↔ p = false ∧ c = true) ∧
    (∀ p c : Bool,
      alarmDispatch p c = some AlarmCall.stop ↔ p = true ∧ c = false) ∧
    (∀ p c : Bool, alarmDispatch p c = none ↔ p = c) ∧
    runCalls false [false, false, true, true, false] =
      [none, none, some AlarmCall.start, none, some AlarmCall.stop] ∧
    (runCalls false [false, false, true, true, false]).count
        (some AlarmCall.start) = 1 ∧
    (runCalls false [false, false, true, true, false]).count
        (some AlarmCall.stop) = 1 := by
  refine ⟨?_, ?_, ?_, ?_, ?_, ?_⟩ <;> decide

/-- The mutable state of `AlertSystem`: the flags `is_alerting` and
`stop_alert`, whether tone synthesis produced a sound buffer
(`self.alarm_sound is not None`), and the number of live playback threads
(`self.alert_thread` being alive counts as 1). The playback worker's loop
condition is `not self.stop_alert and self.is_alerting`, so under the
sequential main-thread interleaving a worker is live exactly between a
start that spawned it and the next stop (cooperative cancellation within
one loop iteration). -/
structure AlertState where
  is_alerting : Bool
  stop_alert : Bool
  alarm_sound : Bool
  live_workers : ℕ
deriving DecidableEq, Repr

/-- `AlertSystem.__init__` with collaborator outcomes injected:
`pygame.mixer.init` is called outside any try/except, so its failure
propagates out of the constructor; `_generate_alarm_sound` catches its own
exception, prints a warning and leaves `alarm_sound = None`. -/
def alert_init (mixer_ok synth_ok : Bool) : Except String AlertState :=
  if !mixer_ok then Except.error "pygame.error raised by pygame.mixer.init"
  else Except.ok
    { is_alerting := false, stop_alert := false,
      alarm_sound := synth_ok, live_workers := 0 }

/-- The post-construction state when both audio steps succeed. -/
def initAlert : AlertState :=
  { is_alerting := false, stop_alert := false,
    alarm_sound := true, live_workers := 0 }

/-- The degraded post-construction state after a tone-synthesis failure. -/
def silentAlert : AlertState :=
  { is_alerting := false, stop_alert := false,
    alarm_sound := false, live_workers := 0 }

/-- `AlertSystem.trigger_alert`: a no-op when `is_alerting` is already set;
otherwise it sets `is_alerting`, clears `stop_alert`, and spawns a playback
thread only when none is live (`alert_thread is None or not
alert_thread.is_alive()`). -/
def trigger_alert (s : AlertState) : AlertState :=
  if !s.is_alerting then
    { s with is_alerting := true, stop_alert := false,
             live_workers := if s.live_workers = 0 then 1 else s.live_workers }
  else s

/-- `AlertSystem.stop_alert_sound`: a no-op when `is_alerting` is unset;
otherwise it clears `is_alerting`, sets `stop_alert` (the worker's loop
guard fails at its next check, so no worker stays live), and calls
`pygame.mixer.stop()` inside try/except. -/
def stop_alert_sound (s : AlertState) : AlertState :=
  if s.is_alerting then
    { s with is_alerting := false, stop_alert := true, live_workers := 0 }
  else s

/-- One pass of `AlertSystem._play_alarm_loop` under its guard: with a
sound buffer it plays it, catching any playback exception and leaving the
loop (`break`) instead of propagating; with no buffer it only sleeps.
Returns whether the loop continues; it never raises. -/
def play_alarm_iter (s : AlertState) (play_ok : Bool) : Bool :=
  if !s.stop_alert && s.is_alerting then
    if s.alarm_sound then
      if play_ok then true else false
    else true
  else false

/-- C5: `trigger_alert` is idempotent — a second sequential start call with
no intervening stop is a no-op and never spawns a second playback thread —
and any nonempty sequence of sequential start calls from the freshly
constructed state leaves exactly one live playback worker. -/
theorem trigger_alert_idempotent (n : ℕ) (h : 1 ≤ n) :
    (∀ s : AlertState, trigger_alert (trigger_alert s) = trigger_alert s) ∧
    (trigger_alert^[n] initAlert).live_workers = 1 := by
  have idem : ∀ s : AlertState,
      trigger_alert (trigger_alert s) = trigger_alert s := by
    intro s
    unfold trigger_alert
    by_cases hs : s.is_alerting <;> simp [hs]
  refine ⟨idem, ?_⟩
  obtain ⟨m, rfl⟩ := Nat.exists_eq_add_of_le h
  have key : ∀ k : ℕ,
      trigger_alert^[k + 1] initAlert = trigger_alert initAlert := by
    intro k
    induction k with
    | zero => rfl
    | succ j ih =>
      rw [Function.iterate_succ_apply', ih, idem]
  rw [Nat.add_comm 1 m, key m]
  rfl

/-- C5 witness: two sequential start calls on the fresh state leave exactly
one live playback worker, and the second call is a no-op on every state. -/
theorem trigger_alert_idempotent_witness :
    (∀ s : AlertState, trigger_alert (trigger_alert s) = trigger_alert s) ∧
    (trigger_alert^[2] initAlert).live_workers = 1 :=
  trigger_alert_idempotent 2 (by decide)

/-- C6: `stop_alert_sound` is total (no error), idempotent, leaves
`is_alerting` false from every prior state, and is a no-op on the
never-started fresh state. -/
theorem stop_alert_sound_idempotent (s : AlertState) :
    stop_alert_sound (stop_alert_sound s) = stop_alert_sound s ∧
    (stop_alert_sound s).is_alerting = false ∧
    stop_alert_sound initAlert = initAlert := by
  refine ⟨?_, ?_, rfl⟩ <;>
    · unfold stop_alert_sound
      by_cases hs : s.is_alerting <;> simp [hs]

/-- C7 counterexample: with the playback device unavailable,
`pygame.mixer.init` raises outside any try/except, so construction of the
alert system aborts instead of degrading to a silent alert. -/
theorem mixer_init_failure_aborts :
    alert_init false true =
      Except.error "pygame.error raised by pygame.mixer.init" := rfl

/-- C7 (amended): a tone-synthesis failure degrades to a silent alert —
construction still succeeds with no sound buffer, start and stop
transitions still occur on the degraded state, a playback-loop error is
caught and ends the loop without propagating — while a mixer
initialization failure (playback device unavailable) makes the constructor
raise: exactly the mixer-failure inputs abort. -/
theorem audio_synth_failure_degrades :
    (∀ synth_ok : Bool, alert_init true synth_ok = Except.ok
      { is_alerting := false, stop_alert := false,
        alarm_sound := synth_ok, live_workers := 0 }) ∧
    alert_init true false = Except.ok silentAlert ∧
    (trigger_alert silentAlert).is_alerting = true ∧
    (trigger_alert silentAlert).live_workers = 1 ∧
    (stop_alert_sound (trigger_alert silentAlert)).is_alerting = false ∧
    (∀ s : AlertState, s.alarm_sound = true → play_alarm_iter s false = false) ∧
    (∀ mixer_ok synth_ok : Bool,
      (alert_init mixer_ok synth_ok =
        Except.error "pygame.error raised by pygame.mixer.init") ↔
      mixer_ok = false) := by
  refine ⟨?_, rfl, rfl, rfl, rfl, ?_, ?_⟩
  · intro so
    cases so <;> rfl
  · intro s hs
    simp [play_alarm_iter, hs]
  · intro mo so
    cases mo <;> cases so <;> simp [alert_init]

/-- The four teardown steps of `SafetyApp.cleanup`, in source order. -/
inductive CleanupStep where
  | stopAlarm
  | releaseDetector
  | releaseCapture
  | closeWindows
deriving DecidableEq, Repr

/-- Failure injection for the collaborator calls teardown makes:
`pygame.mixer.quit` (and `pygame.mixer.stop`) inside `AlertSystem.release`,
`self.hands.close()` inside `GestureDetector.release`, `self.cap.release()`
and `cv2.destroyAllWindows()` inside `SafetyApp.cleanup`. -/
structure TeardownFaults where
  mixer_quit_fails : Bool
  hands_close_fails : Bool
  cap_release_fails : Bool
  destroy_windows_fails : Bool
deriving DecidableEq, Repr

/-- `SafetyApp.cleanup`: `alert_system.release()` →
`gesture_detector.release()` → `cap.release()` → `cv2.destroyAllWindows()`,
in that order. `AlertSystem.release` wraps `pygame.mixer.quit` in
try/except (and `stop_alert_sound` wraps `pygame.mixer.stop` likewise), so
the alarm-stop step completes even when the mixer fails; the other three
calls are not guarded, so an exception in one propagates out of `cleanup`
and the later steps never run. Returns the steps that completed and
whether an exception escaped. -/
def cleanup (f : TeardownFaults) : List CleanupStep × Bool :=
  if f.hands_close_fails then
    ([CleanupStep.stopAlarm], true)
  else if f.cap_release_fails then
    ([CleanupStep.stopAlarm, CleanupStep.releaseDetector], true)
  else if f.destroy_windows_fails then
    ([CleanupStep.stopAlarm, CleanupStep.releaseDetector,
      CleanupStep.releaseCapture], true)
  else
    ([CleanupStep.stopAlarm, CleanupStep.releaseDetector,
      CleanupStep.releaseCapture, CleanupStep.closeWindows], false)

/-- The ways out of the main loop of `SafetyApp.run`: the quit keypress and
a frame-read failure `break`, `KeyboardInterrupt` and any other `Exception`
are caught, and all of them reach the `finally:` block. -/
inductive ExitPath where
  | quitKey
  | readFailure
  | keyboardInterrupt
  | uncaughtError
deriving DecidableEq, Repr

/-- The teardown run on each exit path from the main loop: the `finally:`
block of `SafetyApp.run` invokes `self.cleanup()` on every way out. -/
def run_teardown (_e : ExitPath) (f : TeardownFaults) :
    List CleanupStep × Bool :=
  cleanup f

/-- C8 counterexample: when releasing the pose-model resources raises
(`self.hands.close()` is not guarded), teardown stops there — the capture
device is never released and the render windows are never closed, so a
failure in one release does prevent the remaining releases. -/
theorem cleanup_not_best_effort :
    (cleanup ⟨false, true, false, false⟩).1 = [CleanupStep.stopAlarm] ∧
    CleanupStep.releaseCapture ∉ (cleanup ⟨false, true, false, false⟩).1 ∧
    CleanupStep.closeWindows ∉ (cleanup ⟨false, true, false, false⟩).1 ∧
    (cleanup ⟨false, true, false, false⟩).2 = true := by
  decide

/-- C8 (amended): on every exit path from the main loop teardown runs as a
prefix of the order stop alarm → release pose-model resources → release
capture device → close render windows; the alarm-stop step always
completes (its audio calls are individually guarded, so even a mixer
failure does not lose it), and when no release fails all four steps run;
but a failure while releasing the pose model, the capture device or the
windows propagates and skips the remaining steps. -/
theorem teardown_order_spec :
    (∀ (e : ExitPath) (f : TeardownFaults), run_teardown e f = cleanup f) ∧
    (∀ f : TeardownFaults, (cleanup f).1 <+:
      [CleanupStep.stopAlarm, CleanupStep.releaseDetector,
       CleanupStep.releaseCapture, CleanupStep.closeWindows]) ∧
    (∀ f : TeardownFaults, CleanupStep.stopAlarm ∈ (cleanup f).1) ∧
    (∀ mq : Bool, cleanup ⟨mq, false, false, false⟩ =
      ([CleanupStep.stopAlarm, CleanupStep.releaseDetector,
        CleanupStep.releaseCapture, CleanupStep.closeWindows], false)) := by
  refine ⟨fun e f => rfl, ?_, ?_, ?_⟩
  · rintro ⟨mq, hc, cr, dw⟩
    cases mq <;> cases hc <;> cases cr <;> cases dw <;> decide
  · rintro ⟨mq, hc, cr, dw⟩
    cases mq <;> cases hc <;> cases cr <;> cases dw <;> decide
  · intro mq
    cases mq <;> rfl

end WomensSafety
